import Mathlib

/-!
# Quote/pricing calculator of `src/components/CalculatorView.tsx`

A shallow embedding of the quote engine: unit conversion, the four
append flows (dimensional, DTF film, catalog product, manual entry),
quote accumulation and submission.  JavaScript numbers are modelled by
`ℚ` (exact arithmetic; the spec's claims are stated "up to floating
point").  A JavaScript value that may be `NaN` after `parseFloat` is
modelled by `Option ℚ` with `none` for `NaN`.  String fields that no
claim touches (display names, synthetic item ids) are omitted from the
records; every numeric field and every control-flow decision of the
source is kept.
-/

namespace CalculatorView

/-- The `Unit` type of the source (`'m' | 'ft' | 'in' | 'cm'`, line 15).
`in` is a Lean keyword, hence `inch`. -/
inductive LUnit
  | m
  | cm
  | inch
  | ft
deriving DecidableEq, Repr

/-- `CONVERSION_TO_METER` (lines 17-22): fixed multiplicative factor to
meters for each unit. -/
def CONVERSION_TO_METER : LUnit → ℚ
  | .m => 1
  | .cm => 1 / 100
  | .inch => 254 / 10000
  | .ft => 3048 / 10000

/-- `toMeters`: the conversion applied by `lengthInMeters` /
`widthInMeters` (lines 138-139): `value × factor[unit]`. -/
def toMeters (value : ℚ) (u : LUnit) : ℚ := value * CONVERSION_TO_METER u

/-- `fromMeters`: the inverse conversion, `meters / factor[unit]`, as used
by `UnitConverterDisplay` for ft and in (lines 80-81). -/
def fromMeters (meters : ℚ) (u : LUnit) : ℚ := meters / CONVERSION_TO_METER u

/-- The four per-unit values computed by `conversions` inside
`UnitConverterDisplay` (lines 77-82), before decimal formatting:
m is shown as-is, cm as `valM * 100`, ft and in as divisions by the
factor. -/
def conversions (valM : ℚ) : LUnit → ℚ
  | .m => valM
  | .cm => valM * 100
  | .ft => valM / CONVERSION_TO_METER .ft
  | .inch => valM / CONVERSION_TO_METER .inch

/-- The length-input `onChange` handler (line 399) and width-input
handler (line 414): `parseFloat(e.target.value) || 0`.  `none` models a
`NaN` parse (non-numeric text); `|| 0` maps `NaN` and `0` to `0` and
keeps every other numeric value, including negatives. -/
def parseDimInput : Option ℚ → ℚ
  | none => 0
  | some x => if x = 0 then 0 else x

/-- A quote line item (`SaleItem`): quantity and unit price.  The
`itemId`/`name` string fields of the source are display-only and are
omitted. -/
structure SaleItem where
  quantity : ℚ
  price : ℚ
deriving DecidableEq, Repr

/-- A material roll (`StockItem`), the fields the calculator reads:
`skuId`, `categoryId`, roll `width` in meters. -/
structure StockItem where
  skuId : String
  categoryId : String
  width : ℚ
deriving DecidableEq, Repr

/-- A pricing tier (`PricingTier`), the fields the calculator reads:
`id`, `categoryId` and the numeric multiplier `value`
(currency per square centimeter). -/
structure PricingTier where
  id : String
  categoryId : String
  value : ℚ
deriving DecidableEq, Repr

/-- A catalog product (`InventoryItem`), the fields the catalog append
flow reads: preferred unit `price` and the optional floor `minPrice`
(`none` models an absent/undefined field). -/
structure InventoryItem where
  price : ℚ
  minPrice : Option ℚ
deriving DecidableEq, Repr

/-- The DTF preset selection (`dtfPreset : 'A4' | 'A3' | null`, line 121);
`Option DtfPreset` carries the `null` case. -/
inductive DtfPreset
  | A4
  | A3
deriving DecidableEq, Repr

/-- `tiersForSelectedItem` (lines 221-226): empty when no roll is
selected, when the selected sku resolves to no stock item, or when the
resolved item's category id is falsy; otherwise the tiers of that
category. -/
def tiersForSelectedItem (stockItems : List StockItem)
    (pricingTiers : List PricingTier) (selectedStockItem : String) :
    List PricingTier :=
  if selectedStockItem = "" then []
  else
    match (stockItems.find? (fun i => i.skuId = selectedStockItem)).map
        (fun i => i.categoryId) with
    | none => []
    | some categoryId =>
        if categoryId = "" then []
        else pricingTiers.filter (fun tier => tier.categoryId = categoryId)

/-- `selectedMultiplier` (lines 228-231): `0` when no tier is selected or
the selected tier id resolves to none; otherwise that tier's `value`
(the source's `?.value || 0` maps a missing tier to 0; a tier value of 0
maps to 0, which is the value itself). -/
def selectedMultiplier (tiers : List PricingTier) (selectedTier : String) : ℚ :=
  if selectedTier = "" then 0
  else
    match tiers.find? (fun t => t.id = selectedTier) with
    | none => 0
    | some t => t.value

/-- The form state of the dimensional/DTF calculator tab. -/
structure DimState where
  length : ℚ
  lengthUnit : LUnit
  width : ℚ
  widthUnit : LUnit
  selectedStockItem : String
  selectedTier : String
  dimQuantity : ℚ
  extraAmount : ℚ
  isDTF : Bool
  dtfPreset : Option DtfPreset
deriving Repr

/-- `lengthInMeters` (line 138). -/
def DimState.lengthInMeters (s : DimState) : ℚ := toMeters s.length s.lengthUnit

/-- `widthInMeters` (line 139). -/
def DimState.widthInMeters (s : DimState) : ℚ := toMeters s.width s.widthUnit

/-- `totalDimPrice` (lines 233-245): DTF presets are flat per-quantity
amounts (A4: 5000, A3: 10000), DTF without preset is a per-meter rate
(15000/m), and the non-DTF case is area pricing in square centimeters;
the extra fee is added on top. -/
def totalDimPrice (isDTF : Bool) (dtfPreset : Option DtfPreset)
    (lengthInMeters widthInMeters selectedMultiplier dimQuantity
      extraAmount : ℚ) : ℚ :=
  let basePrice :=
    if isDTF then
      match dtfPreset with
      | some .A4 => 5000 * dimQuantity
      | some .A3 => 10000 * dimQuantity
      | none => lengthInMeters * 15000 * dimQuantity
    else
      let lengthCM := lengthInMeters * 100
      let widthCM := widthInMeters * 100
      lengthCM * widthCM * selectedMultiplier * dimQuantity
  basePrice + extraAmount

/-- `totalDimPrice` evaluated on a `DimState` against the catalog lists,
resolving the multiplier exactly as the component memos do. -/
def DimState.totalDimPrice (stockItems : List StockItem)
    (pricingTiers : List PricingTier) (s : DimState) : ℚ :=
  CalculatorView.totalDimPrice s.isDTF s.dtfPreset s.lengthInMeters
    s.widthInMeters
    (selectedMultiplier
      (tiersForSelectedItem stockItems pricingTiers s.selectedStockItem)
      s.selectedTier)
    s.dimQuantity s.extraAmount

/-- The toast errors of `handleAddDimToQuote` (lines 266-268), in source
order. -/
inductive DimError
  | noRoll
  | noTier
  | nonPositiveTotal
deriving DecidableEq, Repr

/-- Outcome of `handleAddDimToQuote`: a reported validation error, the
silent early `return` of the failed stock-item lookup (line 271), or a
successful append of a line item. -/
inductive DimOutcome
  | error (e : DimError)
  | silent
  | appended (item : SaleItem)
deriving DecidableEq, Repr

/-- `handleAddDimToQuote` (lines 265-297): validations in source order
(roll selected; tier selected unless DTF; total > 0), then the stock
lookup, then the line item with unit price `totalDimPrice / dimQuantity`. -/
def handleAddDimToQuote (stockItems : List StockItem)
    (pricingTiers : List PricingTier) (s : DimState) : DimOutcome :=
  if s.selectedStockItem = "" then .error .noRoll
  else if ¬s.isDTF ∧ s.selectedTier = "" then .error .noTier
  else if s.totalDimPrice stockItems pricingTiers ≤ 0 then
    .error .nonPositiveTotal
  else
    match stockItems.find? (fun i => i.skuId = s.selectedStockItem) with
    | none => .silent
    | some _ =>
        .appended
          ⟨s.dimQuantity, s.totalDimPrice stockItems pricingTiers / s.dimQuantity⟩

/-- Effect of a dimensional-flow outcome on the quote list: only a
successful append mutates it (`setQuoteItems(prev => [...prev, newItem])`,
line 292). -/
def applyDim (quote : List SaleItem) : DimOutcome → List SaleItem
  | .appended item => quote ++ [item]
  | _ => quote

/-- `totalSimplePrice` (lines 247-249):
`negotiatedPrice × simpleQuantity + extraAmount`. -/
def totalSimplePrice (negotiatedPrice simpleQuantity extraAmount : ℚ) : ℚ :=
  negotiatedPrice * simpleQuantity + extraAmount

/-- `selectedProduct.minPrice || 0` (lines 303-304): an absent floor and
a floor of exactly 0 both give 0; any other stored value — including a
negative one — passes through unchanged. -/
def effMinPrice : Option ℚ → ℚ
  | none => 0
  | some v => if v = 0 then 0 else v

/-- The toast errors of `handleAddSimpleToQuote` (lines 300-306), in
source order; the below-floor error carries the reported floor amount. -/
inductive SimpleError
  | noProduct
  | nonPositiveQuantity
  | belowFloor (floor : ℚ)
deriving DecidableEq, Repr

/-- Outcome of `handleAddSimpleToQuote`. -/
inductive SimpleOutcome
  | error (e : SimpleError)
  | appended (item : SaleItem)
deriving DecidableEq, Repr

/-- `handleAddSimpleToQuote` (lines 299-336): product selected, quantity
> 0, negotiated price ≥ effective floor, then the line item with unit
price `negotiatedPrice + extraAmount / simpleQuantity` (line 327). -/
def handleAddSimpleToQuote (selectedProduct : Option InventoryItem)
    (negotiatedPrice simpleQuantity extraAmount : ℚ) : SimpleOutcome :=
  match selectedProduct with
  | none => .error .noProduct
  | some product =>
      if simpleQuantity ≤ 0 then .error .nonPositiveQuantity
      else if negotiatedPrice < effMinPrice product.minPrice then
        .error (.belowFloor (effMinPrice product.minPrice))
      else
        .appended ⟨simpleQuantity, negotiatedPrice + extraAmount / simpleQuantity⟩

/-- Effect of a catalog-flow outcome on the quote list (line 330). -/
def applySimple (quote : List SaleItem) : SimpleOutcome → List SaleItem
  | .appended item => quote ++ [item]
  | _ => quote

/-- Strip leading whitespace characters from a character list. -/
def jsTrimLeft : List Char → List Char
  | [] => []
  | c :: cs => if c.isWhitespace then jsTrimLeft cs else c :: cs

/-- `String.prototype.trim`: strip leading and trailing whitespace, as
`.trim()` does on line 339 (an executable rendering of string trimming,
stated over the string's character list). -/
def jsTrim (s : String) : String :=
  ⟨(jsTrimLeft ((jsTrimLeft s.data).reverse)).reverse⟩

/-- The toast errors of `handleAddManualToQuote` (lines 339-341), in
source order. -/
inductive ManualError
  | blankName
  | nonPositivePrice
  | nonPositiveQuantity
deriving DecidableEq, Repr

/-- Outcome of `handleAddManualToQuote`. -/
inductive ManualOutcome
  | error (e : ManualError)
  | appended (item : SaleItem)
deriving DecidableEq, Repr

/-- `handleAddManualToQuote` (lines 338-354): non-blank trimmed name,
price > 0, quantity > 0, then the line item priced at `manualPrice`. -/
def handleAddManualToQuote (manualItemName : String)
    (manualPrice manualQuantity : ℚ) : ManualOutcome :=
  if jsTrim manualItemName = "" then .error .blankName
  else if manualPrice ≤ 0 then .error .nonPositivePrice
  else if manualQuantity ≤ 0 then .error .nonPositiveQuantity
  else .appended ⟨manualQuantity, manualPrice⟩

/-- Effect of a manual-flow outcome on the quote list (line 350). -/
def applyManual (quote : List SaleItem) : ManualOutcome → List SaleItem
  | .appended item => quote ++ [item]
  | _ => quote

/-- `handleClearQuote` (line 356): `setQuoteItems([])`. -/
def handleClearQuote : List SaleItem := []

/-- `handleRemoveQuoteItem` (line 357):
`prev.filter((_, i) => i !== index)` — keep every element whose position
differs from `index`. -/
def handleRemoveQuoteItem (items : List SaleItem) (index : ℕ) : List SaleItem :=
  (items.enum.filter (fun p => p.1 ≠ index)).map Prod.snd

/-- `totalQuotePrice` (line 365):
`quoteItems.reduce((acc, item) => acc + item.price * item.quantity, 0)`. -/
def totalQuotePrice (quoteItems : List SaleItem) : ℚ :=
  quoteItems.foldl (fun acc item => acc + item.price * item.quantity) 0

/-- Result of `handleCreateSaleClick`: whether `onCreateSale` was called
(and with which list), the quote after the handler finishes, and whether
the empty-quote rejection toast fired. -/
structure SubmitOutcome where
  callMade : Option (List SaleItem)
  quoteAfter : List SaleItem
  refusedEmpty : Bool
deriving DecidableEq, Repr

/-- `handleCreateSaleClick` (lines 359-363): an empty quote is refused
with no collaborator call; otherwise `onCreateSale(quoteItems)` runs and,
if it returns normally, `handleClearQuote()` empties the quote.  A
collaborator that throws (`Except.error`) propagates before the clear,
leaving the quote as it was. -/
def handleCreateSaleClick (onCreateSale : List SaleItem → Except String Unit)
    (quoteItems : List SaleItem) : SubmitOutcome :=
  if quoteItems.length = 0 then
    ⟨none, quoteItems, true⟩
  else
    match onCreateSale quoteItems with
    | .ok _ => ⟨some quoteItems, handleClearQuote, false⟩
    | .error _ => ⟨some quoteItems, quoteItems, false⟩

/-! ## Concrete fixtures used by witnesses and counterexamples -/

/-- A one-roll catalog: sku `SKU1` in category `cat1`, roll width 1 m. -/
def stockItems1 : List StockItem := [⟨"SKU1", "cat1", 1⟩]

/-- A one-tier catalog: tier `T1` for category `cat1`, multiplier 5
currency per square centimeter. -/
def tiers1 : List PricingTier := [⟨"T1", "cat1", 5⟩]

/-- The spec's dimensional scenario: length 100 cm, width 60 cm, roll
`SKU1`, tier `T1`, quantity 1, no extra fee, non-DTF. -/
def dimScenario : DimState := ⟨100, .cm, 60, .cm, "SKU1", "T1", 1, 0, false, none⟩

/-- Negative-dimensions state: the length field holds the parsed value of
the text `-100` (cm) and the width field `-60` (cm); otherwise as
`dimScenario`. -/
def dimNegScenario : DimState :=
  ⟨parseDimInput (some (-100)), .cm, -60, .cm, "SKU1", "T1", 1, 0, false, none⟩

/-- A selected tier id that matches no tier of the catalog, so the
multiplier resolves to 0 and the computed total is 0. -/
def dimZeroScenario : DimState := ⟨100, .cm, 60, .cm, "SKU1", "TX", 1, 0, false, none⟩

/-- DTF state whose selected roll id `GHOST` resolves to no stock item,
with the A4 preset active (total 5000 > 0, so validation passes). -/
def dimGhostScenario : DimState :=
  ⟨100, .cm, 60, .cm, "GHOST", "", 1, 0, true, some .A4⟩

/-- A three-item quote used to exercise removal and totalling. -/
def quote3 : List SaleItem := [⟨1, 100⟩, ⟨2, 200⟩, ⟨3, 300⟩]

/-- A collaborator that accepts every handoff. -/
def saleOk : List SaleItem → Except String Unit := fun _ => .ok ()

/-- A collaborator that fails every handoff. -/
def saleFail : List SaleItem → Except String Unit := fun _ => .error "backend down"

/-! ## Helper lemmas -/

/-- Indices of `enumFrom n l` all exceed any `m < n`, so filtering them
against `m` keeps everything. -/
theorem enumFrom_filter_ne_of_lt {α : Type} (l : List α) (n m : ℕ) (h : m < n) :
    (l.enumFrom n).filter (fun p => p.1 ≠ m) = l.enumFrom n := by
  rw [List.filter_eq_self, List.forall_mem_enumFrom]
  intro i hi
  simp only [ne_eq, decide_not, Bool.not_eq_true', decide_eq_false_iff_not]
  omega

/-- The second components of `enumFrom n l` are `l` itself. -/
theorem enumFrom_map_snd {α : Type} (l : List α) (n : ℕ) :
    (l.enumFrom n).map Prod.snd = l := by
  induction l generalizing n with
  | nil => rfl
  | cons a l ih => simp only [List.enumFrom, List.map, ih]

/-- Filtering `enumFrom n l` on index ≠ `n + i` and projecting drops
exactly the element at offset `i`. -/
theorem enumFrom_filter_map_eraseIdx {α : Type} (l : List α) (n i : ℕ) :
    ((l.enumFrom n).filter (fun p => p.1 ≠ n + i)).map Prod.snd =
      l.eraseIdx i := by
  induction l generalizing n i with
  | nil => rfl
  | cons a l ih =>
      cases i with
      | zero =>
          rw [List.enumFrom, List.filter_cons]
          simp only [Nat.add_zero]
          rw [enumFrom_filter_ne_of_lt l (n + 1) n (Nat.lt_succ_self n)]
          simp [enumFrom_map_snd l (n + 1)]
      | succ j =>
          have hne : n ≠ n + (j + 1) := by omega
          have harith : n + (j + 1) = (n + 1) + j := by omega
          rw [List.enumFrom, List.filter_cons]
          simp only [ne_eq, hne, not_false_eq_true, decide_True, if_true,
            List.map, List.eraseIdx]
          rw [harith, ih (n + 1) j]

/-- `handleRemoveQuoteItem` is exactly positional erasure. -/
theorem handleRemoveQuoteItem_eq_eraseIdx (items : List SaleItem) (index : ℕ) :
    handleRemoveQuoteItem items index = items.eraseIdx index := by
  have h := enumFrom_filter_map_eraseIdx items 0 index
  simpa [handleRemoveQuoteItem, List.enum] using h

/-- `foldl`-with-accumulator form of the quote total. -/
theorem totalQuotePrice_foldl (items : List SaleItem) (acc : ℚ) :
    items.foldl (fun a item => a + item.price * item.quantity) acc =
      acc + (items.map (fun item => item.price * item.quantity)).sum := by
  induction items generalizing acc with
  | nil => simp
  | cons x xs ih =>
      simp only [List.foldl, List.map, List.sum_cons]
      rw [ih]
      ring

/-- A non-positive computed total makes `handleAddDimToQuote` stop at a
reported validation error, leaving any quote unchanged. -/
theorem dim_nonpos_total_not_appended (stockItems : List StockItem)
    (pricingTiers : List PricingTier) (s : DimState)
    (h : s.totalDimPrice stockItems pricingTiers ≤ 0) (quote : List SaleItem) :
    applyDim quote (handleAddDimToQuote stockItems pricingTiers s) = quote := by
  unfold handleAddDimToQuote
  split
  · rfl
  · split
    · rfl
    · rfl

/-! ## Claims -/

/-- C3: for every length unit u ∈ {m, cm, in, ft} and every value x,
converting x to meters by the fixed factor and back (division by the
factor, which is also what `UnitConverterDisplay` computes) returns x
exactly in exact arithmetic. -/
theorem c3_unit_roundtrip (u : LUnit) (x : ℚ) :
    fromMeters (toMeters x u) u = x ∧ conversions (toMeters x u) u = x := by
  cases u <;> refine ⟨?_, ?_⟩
  all_goals simp [fromMeters, toMeters, conversions, CONVERSION_TO_METER]

/-- C4: with a DTF film preset selected, `totalDimPrice` is the preset's
flat per-unit amount (A4: 5000, A3: 10000) times the quantity plus the
extra fee, for every value of the length field; in particular preset A4
with quantity 3 and no extra fee gives 15000 for every length. -/
theorem c4_preset_flat_price :
    (∀ lengthM widthM mult qty extra : ℚ,
      totalDimPrice true (some .A4) lengthM widthM mult qty extra =
        5000 * qty + extra) ∧
    (∀ lengthM widthM mult qty extra : ℚ,
      totalDimPrice true (some .A3) lengthM widthM mult qty extra =
        10000 * qty + extra) ∧
    (∀ lengthM widthM mult : ℚ,
      totalDimPrice true (some .A4) lengthM widthM mult 3 0 = 15000) := by
  refine ⟨?_, ?_, ?_⟩ <;> intros
  all_goals simp [totalDimPrice]
  all_goals ring

/-- C1: a valid dimensional (non-DTF) append — resolvable roll selected,
tier selected, positive quantity, positive computed total — appends a
line item whose unit price times quantity equals
lengthCm × widthCm × tierMultiplier × quantity + extraFee, with
lengthCm/widthCm the entered dimensions converted to meters and
multiplied by 100. -/
theorem c1_dim_unit_price_identity (stockItems : List StockItem)
    (pricingTiers : List PricingTier) (s : DimState)
    (hdtf : s.isDTF = false)
    (hsel : s.selectedStockItem ≠ "")
    (htier : s.selectedTier ≠ "")
    (hq : 0 < s.dimQuantity)
    (hpos : 0 < s.totalDimPrice stockItems pricingTiers)
    (item : StockItem)
    (hfind : stockItems.find? (fun i => i.skuId = s.selectedStockItem) =
      some item) :
    ∃ li : SaleItem,
      handleAddDimToQuote stockItems pricingTiers s = .appended li ∧
      li.quantity = s.dimQuantity ∧
      li.price * li.quantity =
        (s.lengthInMeters * 100) * (s.widthInMeters * 100) *
          selectedMultiplier
            (tiersForSelectedItem stockItems pricingTiers s.selectedStockItem)
            s.selectedTier * s.dimQuantity + s.extraAmount := by
  have hhandler : handleAddDimToQuote stockItems pricingTiers s =
      .appended ⟨s.dimQuantity,
        s.totalDimPrice stockItems pricingTiers / s.dimQuantity⟩ := by
    unfold handleAddDimToQuote
    rw [if_neg hsel, if_neg (by simp [hdtf, htier]), if_neg (not_le.mpr hpos),
      hfind]
  refine ⟨_, hhandler, rfl, ?_⟩
  have hmul : s.totalDimPrice stockItems pricingTiers / s.dimQuantity *
      s.dimQuantity = s.totalDimPrice stockItems pricingTiers :=
    div_mul_cancel₀ _ (ne_of_gt hq)
  rw [hmul]
  simp [DimState.totalDimPrice, totalDimPrice, hdtf]

/-- C1 witness: the spec scenario — 100 cm × 60 cm, multiplier 5,
quantity 1, no extra fee — appends a line item with
unit price × quantity = 30000. -/
theorem c1_dim_unit_price_identity_witness :
    ∃ li : SaleItem,
      handleAddDimToQuote stockItems1 tiers1 dimScenario = .appended li ∧
      li.quantity = 1 ∧ li.price * li.quantity = 30000 := by
  obtain ⟨li, h1, h2, h3⟩ :=
    c1_dim_unit_price_identity stockItems1 tiers1 dimScenario rfl
      (by decide) (by decide) (by norm_num [dimScenario])
      (by
        simp [DimState.totalDimPrice, totalDimPrice, dimScenario,
          DimState.lengthInMeters, DimState.widthInMeters, toMeters,
          CONVERSION_TO_METER, tiersForSelectedItem, selectedMultiplier,
          stockItems1, tiers1, List.find?, List.filter])
      ⟨"SKU1", "cat1", 1⟩ (by rfl)
  refine ⟨li, h1, h2, ?_⟩
  rw [h3]
  simp [dimScenario, DimState.lengthInMeters, DimState.widthInMeters,
    toMeters, CONVERSION_TO_METER, tiersForSelectedItem, selectedMultiplier,
    stockItems1, tiers1, List.find?, List.filter]
  norm_num

/-- C2 counterexample: in the catalog flow, a selected product with no
floor, negotiated unit price 0, quantity 1 and no extra fee has computed
aggregate price `totalSimplePrice 0 1 0 = 0` (non-positive), yet the
append is NOT rejected: a line item is inserted and the quote grows. -/
theorem c2_counterexample :
    totalSimplePrice 0 1 0 ≤ 0 ∧
    handleAddSimpleToQuote (some ⟨10000, none⟩) 0 1 0 =
      .appended ⟨1, 0⟩ ∧
    applySimple [] (handleAddSimpleToQuote (some ⟨10000, none⟩) 0 1 0) =
      [⟨1, 0⟩] := by
  refine ⟨by simp [totalSimplePrice], ?_, ?_⟩ <;>
    simp [handleAddSimpleToQuote, effMinPrice, applySimple,
      show ¬(1 : ℚ) ≤ 0 by norm_num]

/-- C2 amended: the dimensional and manual flows reject a non-positive
computed aggregate price before insertion (quote unchanged), and their
inserted items have positive unit price (for the dimensional flow, given
a positive quantity); the catalog flow performs no aggregate-price
check. -/
theorem c2_amended_nonneg_price :
    (∀ (stockItems : List StockItem) (pricingTiers : List PricingTier)
      (s : DimState), s.totalDimPrice stockItems pricingTiers ≤ 0 →
      ∀ quote, applyDim quote (handleAddDimToQuote stockItems pricingTiers s) =
        quote) ∧
    (∀ (stockItems : List StockItem) (pricingTiers : List PricingTier)
      (s : DimState) (li : SaleItem), 0 < s.dimQuantity →
      handleAddDimToQuote stockItems pricingTiers s = .appended li →
      0 < li.price) ∧
    (∀ (name : String) (price qty : ℚ) (li : SaleItem),
      handleAddManualToQuote name price qty = .appended li →
      0 < li.price ∧ 0 < li.price * li.quantity) := by
  refine ⟨fun stockItems pricingTiers s h quote =>
    dim_nonpos_total_not_appended stockItems pricingTiers s h quote, ?_, ?_⟩
  · intro stockItems pricingTiers s li hq happ
    unfold handleAddDimToQuote at happ
    split_ifs at happ with h1 h2 h3
    split at happ
    · exact absurd happ (by simp)
    · rw [DimOutcome.appended.injEq] at happ
      subst happ
      exact div_pos (lt_of_not_le h3) hq
  · intro name price qty li happ
    unfold handleAddManualToQuote at happ
    split_ifs at happ with h1 h2 h3
    rw [ManualOutcome.appended.injEq] at happ
    subst happ
    exact ⟨lt_of_not_le h2, mul_pos (lt_of_not_le h2) (lt_of_not_le h3)⟩

/-- C2 amended witness: the zero-multiplier dimensional state has total
0 and leaves the quote unchanged; a manual append of price 20000 and
quantity 2 yields an item with positive unit price and positive
aggregate. -/
theorem c2_amended_nonneg_price_witness :
    applyDim [] (handleAddDimToQuote stockItems1 tiers1 dimZeroScenario) =
      [] ∧
    (0 : ℚ) < 20000 ∧ (0 : ℚ) < 20000 * 2 := by
  have h := c2_amended_nonneg_price
  refine ⟨h.1 stockItems1 tiers1 dimZeroScenario ?_ [], ?_⟩
  · simp [DimState.totalDimPrice, totalDimPrice, dimZeroScenario,
      DimState.lengthInMeters, DimState.widthInMeters, toMeters,
      CONVERSION_TO_METER, tiersForSelectedItem, selectedMultiplier,
      stockItems1, tiers1, List.find?, List.filter]
  · have hman : handleAddManualToQuote "Delivery" 20000 2 =
        .appended ⟨2, 20000⟩ := by
      simp [handleAddManualToQuote, jsTrim, jsTrimLeft]
      norm_num
    have h2 := h.2.2 "Delivery" 20000 2 ⟨2, 20000⟩ hman
    exact ⟨h2.1, h2.2⟩

/-- C5: the catalog append validates in source order — no product
selected is rejected first; then non-positive quantity; then a
negotiated price below the product's effective floor is rejected with
the floor amount reported and the quote left unchanged. -/
theorem c5_floor_rejection (p : InventoryItem) (neg qty extra : ℚ) :
    (∀ n q e : ℚ, handleAddSimpleToQuote none n q e = .error .noProduct) ∧
    (qty ≤ 0 → handleAddSimpleToQuote (some p) neg qty extra =
      .error .nonPositiveQuantity) ∧
    (0 < qty → neg < effMinPrice p.minPrice →
      handleAddSimpleToQuote (some p) neg qty extra =
        .error (.belowFloor (effMinPrice p.minPrice)) ∧
      ∀ quote,
        applySimple quote (handleAddSimpleToQuote (some p) neg qty extra) =
          quote) := by
  refine ⟨fun n q e => rfl, ?_, ?_⟩
  · intro hq
    simp [handleAddSimpleToQuote, hq]
  · intro hq hfloor
    have herr : handleAddSimpleToQuote (some p) neg qty extra =
        .error (.belowFloor (effMinPrice p.minPrice)) := by
      simp [handleAddSimpleToQuote, not_le.mpr hq, hfloor]
    exact ⟨herr, fun quote => by rw [herr]; rfl⟩

/-- C5 witness: the spec scenario — floor 8000, negotiated 7000,
quantity 1 — is rejected reporting floor 8000, and a one-item quote is
left unchanged. -/
theorem c5_floor_rejection_witness :
    handleAddSimpleToQuote (some ⟨10000, some 8000⟩) 7000 1 0 =
      .error (.belowFloor 8000) ∧
    applySimple [⟨1, 500⟩]
      (handleAddSimpleToQuote (some ⟨10000, some 8000⟩) 7000 1 0) =
      [⟨1, 500⟩] := by
  have h := (c5_floor_rejection ⟨10000, some 8000⟩ 7000 1 0).2.2
    (by norm_num)
    (by norm_num [effMinPrice])
  have hfloor : effMinPrice (some (8000 : ℚ)) = 8000 := by
    norm_num [effMinPrice]
  exact ⟨hfloor ▸ h.1, h.2 [⟨1, 500⟩]⟩

/-- C6: removal deletes exactly the item at the given position,
preserving the relative order of the rest (the list becomes
`take i ++ drop (i+1)`), and the quote total is the derived sum of
`price × quantity` over the current items. -/
theorem c6_remove_and_total :
    (∀ (l : List SaleItem) (i : ℕ), i < l.length →
      handleRemoveQuoteItem l i = l.take i ++ l.drop (i + 1)) ∧
    (∀ l : List SaleItem,
      totalQuotePrice l = (l.map (fun it => it.price * it.quantity)).sum) := by
  constructor
  · intro l i _
    rw [handleRemoveQuoteItem_eq_eraseIdx, List.eraseIdx_eq_take_drop_succ]
  · intro l
    have h := totalQuotePrice_foldl l 0
    simpa [totalQuotePrice] using h

/-- C6 witness: removing index 1 from a three-item quote keeps items 0
and 2 in order, and the total of the three-item quote is
1·100 + 2·200 + 3·300 = 1400. -/
theorem c6_remove_and_total_witness :
    handleRemoveQuoteItem quote3 1 = [⟨1, 100⟩, ⟨3, 300⟩] ∧
    totalQuotePrice quote3 = 1400 := by
  have h := c6_remove_and_total
  constructor
  · rw [h.1 quote3 1 (by norm_num [quote3])]
    rfl
  · rw [h.2 quote3]
    norm_num [quote3]

/-- C7: submission with an empty quote is refused and no collaborator
call is made; with a non-empty quote the full ordered list is handed to
the collaborator, and the quote is cleared exactly when the handoff
returns normally — a failing handoff leaves the quote with its items. -/
theorem c7_submission (onCreateSale : List SaleItem → Except String Unit)
    (quoteItems : List SaleItem) :
    (quoteItems = [] →
      handleCreateSaleClick onCreateSale quoteItems =
        ⟨none, quoteItems, true⟩) ∧
    (quoteItems ≠ [] → onCreateSale quoteItems = .ok () →
      handleCreateSaleClick onCreateSale quoteItems =
        ⟨some quoteItems, [], false⟩) ∧
    (quoteItems ≠ [] → ∀ e, onCreateSale quoteItems = .error e →
      handleCreateSaleClick onCreateSale quoteItems =
        ⟨some quoteItems, quoteItems, false⟩) := by
  refine ⟨?_, ?_, ?_⟩
  · intro hempty
    subst hempty
    rfl
  · intro hne hok
    unfold handleCreateSaleClick
    rw [if_neg (by simpa using hne), hok]
    rfl
  · intro hne e herr
    unfold handleCreateSaleClick
    rw [if_neg (by simpa using hne), herr]

/-- C7 witness: the empty quote is refused with no call; a one-item
quote is handed over whole and cleared on success, and kept intact when
the collaborator fails. -/
theorem c7_submission_witness :
    handleCreateSaleClick saleOk [] = ⟨none, [], true⟩ ∧
    handleCreateSaleClick saleOk [⟨1, 100⟩] =
      ⟨some [⟨1, 100⟩], [], false⟩ ∧
    handleCreateSaleClick saleFail [⟨1, 100⟩] =
      ⟨some [⟨1, 100⟩], [⟨1, 100⟩], false⟩ := by
  refine ⟨(c7_submission saleOk []).1 rfl, ?_, ?_⟩
  · exact (c7_submission saleOk [⟨1, 100⟩]).2.1 (by simp) rfl
  · exact (c7_submission saleFail [⟨1, 100⟩]).2.2 (by simp)
      "backend down" rfl

/-- C8 counterexample: the parsed negative length `-100` is NOT treated
as zero — the parse keeps it and the converted-dimensions display shows
-1 m rather than 0 — and a state with both dimensions negative
(−100 cm × −60 cm) passes validation and appends a line item priced
30000, so negative input does not fail validation before pricing. -/
theorem c8_counterexample :
    parseDimInput (some (-100)) = -100 ∧
    conversions (toMeters (parseDimInput (some (-100))) .cm) .m = -1 ∧
    handleAddDimToQuote stockItems1 tiers1 dimNegScenario =
      .appended ⟨1, 30000⟩ := by
  refine ⟨by norm_num [parseDimInput], ?_, ?_⟩
  · norm_num [parseDimInput, conversions, toMeters, CONVERSION_TO_METER]
  · simp [handleAddDimToQuote, DimState.totalDimPrice, totalDimPrice,
      dimNegScenario, parseDimInput, DimState.lengthInMeters,
      DimState.widthInMeters, toMeters, CONVERSION_TO_METER,
      tiersForSelectedItem, selectedMultiplier, stockItems1, tiers1,
      List.find?, List.filter]
    norm_num

/-- C8 amended: non-numeric dimension input is treated as zero; a
numeric value — including a negative one — is passed through unchanged
to display and pricing; a priced append is rejected only when the
computed total is non-positive, which negative input does not guarantee. -/
theorem c8_amended_parse_validation :
    parseDimInput none = 0 ∧
    (∀ x : ℚ, parseDimInput (some x) = x) ∧
    (∀ (stockItems : List StockItem) (pricingTiers : List PricingTier)
      (s : DimState), s.totalDimPrice stockItems pricingTiers ≤ 0 →
      ∀ quote,
        applyDim quote (handleAddDimToQuote stockItems pricingTiers s) =
          quote) := by
  refine ⟨rfl, ?_, ?_⟩
  · intro x
    by_cases hx : x = 0
    · simp [parseDimInput, hx]
    · simp [parseDimInput, hx]
  · exact fun stockItems pricingTiers s h quote =>
      dim_nonpos_total_not_appended stockItems pricingTiers s h quote

/-- C8 amended witness: `NaN` parses to 0, `-7` parses to `-7`, and the
zero-total dimensional state leaves a sample quote unchanged. -/
theorem c8_amended_parse_validation_witness :
    parseDimInput none = 0 ∧ parseDimInput (some (-7)) = -7 ∧
    applyDim [⟨1, 500⟩]
      (handleAddDimToQuote stockItems1 tiers1 dimZeroScenario) =
      [⟨1, 500⟩] := by
  have h := c8_amended_parse_validation
  refine ⟨h.1, h.2.1 (-7), h.2.2 stockItems1 tiers1 dimZeroScenario ?_ _⟩
  simp [DimState.totalDimPrice, totalDimPrice, dimZeroScenario,
    DimState.lengthInMeters, DimState.widthInMeters, toMeters,
    CONVERSION_TO_METER, tiersForSelectedItem, selectedMultiplier,
    stockItems1, tiers1, List.find?, List.filter]

/-- C9 counterexample: a DTF state whose selected roll id passes
validation (non-empty, preset total 5000 > 0) but resolves to no stock
item makes `handleAddDimToQuote` complete SILENTLY — no exceptional
propagation, no reported failure, no appended item, quote unchanged. -/
theorem c9_counterexample :
    handleAddDimToQuote stockItems1 tiers1 dimGhostScenario = .silent ∧
    applyDim [⟨1, 500⟩]
      (handleAddDimToQuote stockItems1 tiers1 dimGhostScenario) =
      [⟨1, 500⟩] := by
  have h : handleAddDimToQuote stockItems1 tiers1 dimGhostScenario =
      .silent := by
    simp [handleAddDimToQuote, DimState.totalDimPrice, totalDimPrice,
      dimGhostScenario, stockItems1, tiers1, List.find?]
  exact ⟨h, by rw [h]; rfl⟩

/-- C9 amended: expected validation failures are reported as
discriminated error results (never thrown), while a selected roll id
that passes validation but resolves to no stock item produces a silent
no-op: no item appended and no failure reported. -/
theorem c9_amended_silent_lookup (stockItems : List StockItem)
    (pricingTiers : List PricingTier) (s : DimState) :
    (s.selectedStockItem = "" →
      handleAddDimToQuote stockItems pricingTiers s = .error .noRoll) ∧
    (s.selectedStockItem ≠ "" → (s.isDTF = true ∨ s.selectedTier ≠ "") →
      0 < s.totalDimPrice stockItems pricingTiers →
      stockItems.find? (fun i => i.skuId = s.selectedStockItem) = none →
      handleAddDimToQuote stockItems pricingTiers s = .silent ∧
      ∀ quote,
        applyDim quote (handleAddDimToQuote stockItems pricingTiers s) =
          quote) := by
  constructor
  · intro hsel
    unfold handleAddDimToQuote
    rw [if_pos hsel]
  · intro hsel hdtf hpos hfind
    have hsilent : handleAddDimToQuote stockItems pricingTiers s =
        .silent := by
      unfold handleAddDimToQuote
      rw [if_neg hsel, if_neg (by
          rcases hdtf with h | h
          · simp [h]
          · simp [h]), if_neg (not_le.mpr hpos), hfind]
    exact ⟨hsilent, fun quote => by rw [hsilent]; rfl⟩

/-- C9 amended witness: with no roll selected the no-roll error is
reported; the ghost-roll DTF state satisfies the hypotheses and its
append is silent, leaving a sample quote unchanged. -/
theorem c9_amended_silent_lookup_witness :
    handleAddDimToQuote stockItems1 tiers1
      ⟨100, .cm, 60, .cm, "", "", 1, 0, true, some .A4⟩ = .error .noRoll ∧
    handleAddDimToQuote stockItems1 tiers1 dimGhostScenario = .silent := by
  constructor
  · exact (c9_amended_silent_lookup stockItems1 tiers1
      ⟨100, .cm, 60, .cm, "", "", 1, 0, true, some .A4⟩).1 rfl
  · refine ((c9_amended_silent_lookup stockItems1 tiers1
      dimGhostScenario).2 (by decide) (Or.inl rfl) ?_ (by rfl)).1
    simp [DimState.totalDimPrice, totalDimPrice, dimGhostScenario]

/-- C10 counterexample: a product whose stored floor is −5000 has
effective floor −5000 (below 0), and a negotiated unit price of −2000
is NOT rejected: the append succeeds with a negative unit price. -/
theorem c10_counterexample :
    effMinPrice (some (-5000)) = -5000 ∧
    handleAddSimpleToQuote (some ⟨10000, some (-5000)⟩) (-2000) 1 0 =
      .appended ⟨1, -2000⟩ := by
  constructor
  · norm_num [effMinPrice]
  · simp [handleAddSimpleToQuote, effMinPrice,
      show ¬(1 : ℚ) ≤ 0 by norm_num,
      show ¬(-2000 : ℚ) < -5000 by norm_num]

/-- C10 amended: an absent floor is treated as floor 0, so every
non-negative negotiated price is admitted for such a product; a negative
negotiated price is rejected for every product whose EFFECTIVE floor is
non-negative — but a product with a negative stored floor admits
negative negotiated prices down to that floor. -/
theorem c10_amended_floor_default (p : InventoryItem)
    (neg qty extra : ℚ) :
    effMinPrice none = 0 ∧
    (p.minPrice = none → 0 < qty → 0 ≤ neg →
      ∃ li, handleAddSimpleToQuote (some p) neg qty extra = .appended li) ∧
    (0 ≤ effMinPrice p.minPrice → neg < 0 → 0 < qty →
      handleAddSimpleToQuote (some p) neg qty extra =
        .error (.belowFloor (effMinPrice p.minPrice))) := by
  refine ⟨rfl, ?_, ?_⟩
  · intro hnone hq hneg
    refine ⟨⟨qty, neg + extra / qty⟩, ?_⟩
    simp [handleAddSimpleToQuote, hnone, effMinPrice, not_le.mpr hq,
      not_lt.mpr hneg]
  · intro hfloor hneg hq
    have : neg < effMinPrice p.minPrice := lt_of_lt_of_le hneg hfloor
    simp [handleAddSimpleToQuote, not_le.mpr hq, this]

/-- C10 amended witness: a floorless product admits negotiated price 0
(quantity 1), and a negotiated price of −1 against a floor of 0 is
rejected reporting floor 0. -/
theorem c10_amended_floor_default_witness :
    effMinPrice none = 0 ∧
    (∃ li, handleAddSimpleToQuote (some ⟨10000, none⟩) 0 1 0 =
      .appended li) ∧
    handleAddSimpleToQuote (some ⟨10000, none⟩) (-1) 1 0 =
      .error (.belowFloor 0) := by
  have h := c10_amended_floor_default ⟨10000, none⟩ 0 1 0
  have h2 := c10_amended_floor_default ⟨10000, none⟩ (-1) 1 0
  refine ⟨h.1, h.2.1 rfl (by norm_num) (by norm_num), ?_⟩
  have := h2.2.2 (by norm_num [effMinPrice]) (by norm_num) (by norm_num)
  simpa [effMinPrice] using this

end CalculatorView
